import Mathlib

/-!
Shallow embedding of the Response Analytics and Export Engine of the
googleForm-MCP repository (src/src/services/google-forms-service.ts, with the
data model of its types module).  Pure computations are translated directly;
the fetch/export entry point is modelled with an explicit provider value and
an explicit event trace, and the JSON serializer takes the clock reading as an
explicit argument (the source calls new Date().toISOString() there).
-/

namespace GForms

/-- TextAnswer from the types module: a single text value. -/
structure TextAnswer where
  value : String
deriving DecidableEq

/-- TextAnswers from the types module: the list of text values of one answer. -/
structure TextAnswers where
  answers : List TextAnswer
deriving DecidableEq

/-- FileUploadAnswer from the types module. -/
structure FileUploadAnswer where
  fileId : String
  fileName : String
  mimeType : String
deriving DecidableEq

/-- FileUploadAnswers from the types module. -/
structure FileUploadAnswers where
  answers : List FileUploadAnswer
deriving DecidableEq

/-- Grade from the types module; feedback is modelled by its text field. -/
structure Grade where
  score : Int
  correct : Bool
  feedback : Option String
deriving DecidableEq

/-- Answer from the types module: at most one payload variant is populated. -/
structure Answer where
  questionId : String
  textAnswers : Option TextAnswers
  fileUploadAnswers : Option FileUploadAnswers
  grade : Option Grade
deriving DecidableEq

/-- FormResponse from the types module.  The answers object is modelled as an
association list in insertion order, as JS object entries are ordered. -/
structure FormResponse where
  formId : String
  responseId : String
  createTime : Option String
  lastSubmittedTime : Option String
  respondentEmail : Option String
  answers : List (String × Answer)
  totalScore : Option Int
deriving DecidableEq

/-- ChoiceQuestion from the types module (RADIO, CHECKBOX or DROP_DOWN). -/
structure ChoiceQuestion where
  type : String
  options : List String
deriving DecidableEq

/-- ScaleQuestion from the types module. -/
structure ScaleQuestion where
  low : Int
  high : Int
deriving DecidableEq

/-- TextQuestion from the types module. -/
structure TextQuestion where
  paragraph : Option Bool
deriving DecidableEq

/-- Question from the types module; config-free variants are presence flags. -/
structure Question where
  questionId : String
  choiceQuestion : Option ChoiceQuestion
  scaleQuestion : Option ScaleQuestion
  textQuestion : Option TextQuestion
  dateQuestion : Bool
  timeQuestion : Bool
  fileUploadQuestion : Bool
  ratingQuestion : Bool
deriving DecidableEq

/-- QuestionItem from the types module. -/
structure QuestionItem where
  question : Question
deriving DecidableEq

/-- Item from the types module (only the fields the engine reads). -/
structure Item where
  itemId : Option String
  title : Option String
  questionItem : Option QuestionItem
deriving DecidableEq

/-- FormInfo from the types module. -/
structure FormInfo where
  title : String
  description : Option String
deriving DecidableEq

/-- Form from the types module (only the fields the engine reads). -/
structure Form where
  formId : Option String
  info : FormInfo
  items : List Item
deriving DecidableEq

/-- ExportOptions from the types module; the three booleans are optional. -/
structure ExportOptions where
  format : String
  includeMetadata : Option Bool
  includeTimestamps : Option Bool
  flattenResponses : Option Bool
deriving DecidableEq

/-- QuestionStatistics from the types module. -/
structure QuestionStatistics where
  choiceDistribution : Option (List (String × Nat))
  average : Option ℚ
  median : Option ℚ
  min : Option Int
  max : Option Int
  averageLength : Option ℚ
  commonWords : Option (List (String × Nat))
  responseRate : ℚ
deriving DecidableEq

/-- QuestionSummary from the types module. -/
structure QuestionSummary where
  questionId : String
  title : String
  type : String
  responseCount : Nat
  statistics : QuestionStatistics
deriving DecidableEq

/-- ResponseSummary from the types module; the time range is a pair
(earliest, latest) when present. -/
structure ResponseSummary where
  totalResponses : Nat
  questionSummaries : List QuestionSummary
  responseTimeRange : Option (String × String)
deriving DecidableEq

/-- Truthiness of an optional JS string: undefined and the empty string are
falsy. -/
def strTruthy : Option String → Bool
  | none => false
  | some s => s ≠ ""

/-- Truthiness of an optional JS boolean: undefined and false are falsy. -/
def boolTruthy : Option Bool → Bool
  | none => false
  | some b => b

/-- The JS expression x or-else d on an optional string x (the logical-or
idiom): the string when truthy, the fallback otherwise. -/
def orElseStr (o : Option String) (d : String) : String :=
  match o with
  | some s => if s = "" then d else s
  | none => d

/-- JS object property read response.answers[questionId]: first binding of the
key in the association list. -/
def jsLookup (answers : List (String × Answer)) (k : String) : Option Answer :=
  (answers.find? (fun p => p.1 = k)).map (fun p => p.2)

/-- JS parseInt(value, 10): skip leading whitespace, read an optional sign and
then a maximal run of decimal digits; NaN (none) when no digit is read. -/
def parseIntJS (s : String) : Option Int :=
  let cs := s.data.dropWhile (fun c => c.isWhitespace)
  let signed : Int × List Char :=
    match cs with
    | '-' :: rest => (-1, rest)
    | '+' :: rest => (1, rest)
    | _ => (1, cs)
  let ds := signed.2.takeWhile (fun c => c.isDigit)
  if ds.isEmpty then none
  else some (signed.1 * Int.ofNat (ds.foldl (fun acc c => acc * 10 + (c.toNat - 48)) 0))

/-- Lexicographic order on strings through their character lists; this is the
comparison JS default array sort applies to strings. -/
def strDataLe (a b : String) : Prop := a.data ≤ b.data

instance : DecidableRel strDataLe :=
  fun a b => inferInstanceAs (Decidable (a.data ≤ b.data))

instance : IsTotal String strDataLe := ⟨fun a b => le_total a.data b.data⟩

instance : IsTrans String strDataLe := ⟨fun _ _ _ h h' => le_trans h h'⟩

instance : IsAntisymm String strDataLe :=
  ⟨fun _ _ h h' => String.ext (le_antisymm h h')⟩

instance : IsRefl String strDataLe := ⟨fun a => le_refl a.data⟩

/-- Increment of one key in a frequency object, mirroring the JS idiom
dist[value] = (dist[value] or 0) + 1 on an insertion-ordered object. -/
def bump (dist : List (String × Nat)) (value : String) : List (String × Nat) :=
  match dist with
  | [] => [(value, 1)]
  | (k, n) :: rest => if k = value then (k, n + 1) :: rest else (k, n) :: bump rest value

/-- analyzeChoiceQuestion from the service: frequency tally over every text
value appearing in the answers that carry textAnswers. -/
def analyzeChoiceQuestion (answers : List Answer) : List (String × Nat) :=
  answers.foldl
    (fun dist a =>
      match a.textAnswers with
      | some ta => ta.answers.foldl (fun d t => bump d t.value) dist
      | none => dist)
    []

/-- First text value of each answer, then parseInt, keeping only parseable
values: the numeric pipeline of analyzeScaleQuestion. -/
def scaleValues (answers : List Answer) : List Int :=
  ((answers.map (fun a => (a.textAnswers.bind (fun ta => ta.answers.head?)).map
      (fun t => t.value))).reduceOption).filterMap parseIntJS

/-- Result record of analyzeScaleQuestion (a partial QuestionStatistics). -/
structure ScaleStats where
  average : Option ℚ
  median : Option ℚ
  min : Option Int
  max : Option Int
deriving DecidableEq

/-- analyzeScaleQuestion from the service: average, median, min and max of the
surviving integer values; all four absent when no value survives. -/
def analyzeScaleQuestion (answers : List Answer) : ScaleStats :=
  let values := scaleValues answers
  if values.length = 0 then ⟨none, none, none, none⟩
  else
    let sorted := List.insertionSort (fun a b : Int => a ≤ b) values
    let sum : Int := values.foldl (fun acc val => acc + val) 0
    let average : ℚ := (sum : ℚ) / (values.length : ℚ)
    let median : ℚ :=
      if values.length % 2 = 0 then
        ((sorted.getD (values.length / 2 - 1) 0 : ℚ) + (sorted.getD (values.length / 2) 0 : ℚ)) / 2
      else (sorted.getD (values.length / 2) 0 : ℚ)
    ⟨some average, some median, some (sorted.headD 0), some (sorted.getLastD 0)⟩

/-- analyzeRatingQuestion from the service: same analysis as scale questions. -/
def analyzeRatingQuestion (answers : List Answer) : ScaleStats :=
  analyzeScaleQuestion answers

/-- Word list of one text in analyzeTextQuestion: lowercase, strip characters
that are neither word characters nor whitespace, split on whitespace, keep
tokens longer than two characters. -/
def tokenize (t : String) : List String :=
  let lowered := t.data.map Char.toLower
  let stripped := lowered.filter (fun c =>
    c.isAlpha || c.isDigit || c = '_' || c.isWhitespace)
  ((stripped.splitOnP (fun c => c.isWhitespace)).map String.mk).filter
    (fun w => w.length > 2)

/-- Result record of analyzeTextQuestion (a partial QuestionStatistics). -/
structure TextStats where
  averageLength : Option ℚ
  commonWords : Option (List (String × Nat))
deriving DecidableEq

/-- analyzeTextQuestion from the service: average character length of the
non-empty first values, and the ten most frequent long words. -/
def analyzeTextQuestion (answers : List Answer) : TextStats :=
  let texts := ((answers.map (fun a => (a.textAnswers.bind (fun ta => ta.answers.head?)).map
      (fun t => t.value))).reduceOption).filter (fun v => v ≠ "")
  if texts.length = 0 then ⟨none, none⟩
  else
    let totalLength : Nat := texts.foldl (fun acc t => acc + t.length) 0
    let averageLength : ℚ := (totalLength : ℚ) / (texts.length : ℚ)
    let wordCounts := texts.foldl (fun wc t => (tokenize t).foldl bump wc) []
    let commonWords :=
      (List.insertionSort (fun a b : String × Nat => b.2 ≤ a.2) wordCounts).take 10
    ⟨some averageLength, some commonWords⟩

/-- Merge of a ScaleStats record into a QuestionStatistics by object spread. -/
def mergeScale (base : QuestionStatistics) (s : ScaleStats) : QuestionStatistics :=
  ⟨base.choiceDistribution, s.average, s.median, s.min, s.max,
   base.averageLength, base.commonWords, base.responseRate⟩

/-- Merge of a TextStats record into a QuestionStatistics by object spread. -/
def mergeText (base : QuestionStatistics) (t : TextStats) : QuestionStatistics :=
  ⟨base.choiceDistribution, base.average, base.median, base.min, base.max,
   t.averageLength, t.commonWords, base.responseRate⟩

/-- The answers contributed to one question across all responses: the present
values of the per-response property reads, in response order. -/
def answersForQuestion (responses : List FormResponse) (questionId : String) :
    List Answer :=
  (responses.map (fun r => jsLookup r.answers questionId)).reduceOption

/-- analyzeQuestionResponses from the service: response count, response rate,
question type tag and type-specific statistics for one question. -/
def analyzeQuestionResponses (question : Question) (title : String)
    (questionId : String) (responses : List FormResponse) : QuestionSummary :=
  let answersForQuestion := answersForQuestion responses questionId
  let responseCount := answersForQuestion.length
  let responseRate : ℚ :=
    if responses.length > 0 then ((responseCount : ℚ) / (responses.length : ℚ)) * 100 else 0
  let base : QuestionStatistics := ⟨none, none, none, none, none, none, none, responseRate⟩
  let typeStats : String × QuestionStatistics :=
    match question.choiceQuestion with
    | some cq =>
        (cq.type.toLower,
         ⟨some (analyzeChoiceQuestion answersForQuestion), none, none, none, none,
          none, none, responseRate⟩)
    | none =>
      match question.scaleQuestion with
      | some _ => ("scale", mergeScale base (analyzeScaleQuestion answersForQuestion))
      | none =>
        match question.textQuestion with
        | some tq =>
            (if boolTruthy tq.paragraph then "paragraph" else "short_answer",
             mergeText base (analyzeTextQuestion answersForQuestion))
        | none =>
          if question.dateQuestion then ("date", base)
          else if question.timeQuestion then ("time", base)
          else if question.fileUploadQuestion then ("file_upload", base)
          else if question.ratingQuestion then
            ("rating", mergeScale base (analyzeRatingQuestion answersForQuestion))
          else ("unknown", base)
  ⟨questionId, title, typeStats.1, responseCount, typeStats.2⟩

/-- Per-response usable timestamp collection of generateResponseSummary: the
last-submission time when truthy, else the creation time when truthy. -/
def collectResponseTimes (responses : List FormResponse) : List String :=
  responses.filterMap (fun r =>
    if strTruthy r.lastSubmittedTime then r.lastSubmittedTime
    else if strTruthy r.createTime then r.createTime
    else none)

/-- generateResponseSummary from the service, as a function of the fetched
form and the fetched response list. -/
def generateResponseSummary (form : Form) (allResponses : List FormResponse) :
    ResponseSummary :=
  let responseTimes := collectResponseTimes allResponses
  let questionSummaries := form.items.filterMap (fun item =>
    match item.questionItem with
    | some qi =>
        some (analyzeQuestionResponses qi.question
          (orElseStr item.title "Untitled Question") qi.question.questionId allResponses)
    | none => none)
  let responseTimeRange :=
    if responseTimes.length > 0 then
      let sortedTimes := List.insertionSort strDataLe responseTimes
      some (sortedTimes.headD "", sortedTimes.reverse.headD "")
    else none
  ⟨allResponses.length, questionSummaries, responseTimeRange⟩

/-- The declared questions of a form: its items carrying a questionItem, in
display order.  This is the column set of the CSV export. -/
def declaredQuestions (form : Form) : List Item :=
  form.items.filter (fun item => item.questionItem.isSome)

/-- Question identifier of an item, empty when the item has no question. -/
def questionItemId (item : Item) : String :=
  match item.questionItem with
  | some qi => qi.question.questionId
  | none => ""

/-- Global replacement of commas by semicolons, the JS replace with a comma
pattern applied to CSV header titles. -/
def replaceCommas (s : String) : String :=
  String.mk (s.data.map (fun c => if c = ',' then ';' else c))

/-- Global doubling of double quotes, the JS replace with a quote pattern
applied to CSV field values. -/
def escapeQuotes (s : String) : String :=
  String.mk (s.data.flatMap (fun c => if c = '"' then ['"', '"'] else [c]))

/-- The CSV cell of one question for one response in exportAsCsv: the quoted,
quote-escaped join of the text values when the answer carries textAnswers, the
empty string otherwise. -/
def csvQuestionField (response : FormResponse) (questionId : String) : String :=
  match (jsLookup response.answers questionId).bind (fun a => a.textAnswers) with
  | some ta =>
      "\"" ++ escapeQuotes (String.intercalate "; " (ta.answers.map (fun a => a.value))) ++ "\""
  | none => ""

/-- Header cell list of exportAsCsv: responseId, the timestamp columns when
requested, respondentEmail, then one column per declared question using its
title (or a Question_ fallback) with commas replaced by semicolons. -/
def csvHeaders (form : Form) (options : ExportOptions) : List String :=
  ["responseId"]
  ++ (if boolTruthy options.includeTimestamps then ["createTime", "lastSubmittedTime"] else [])
  ++ ["respondentEmail"]
  ++ (declaredQuestions form).map (fun item =>
        replaceCommas (orElseStr item.title ("Question_" ++ questionItemId item)))

/-- Data-row cell list of exportAsCsv for one response. -/
def csvRow (options : ExportOptions) (questions : List Item) (response : FormResponse) :
    List String :=
  [response.responseId]
  ++ (if boolTruthy options.includeTimestamps then
        [orElseStr response.createTime "", orElseStr response.lastSubmittedTime ""] else [])
  ++ [orElseStr response.respondentEmail ""]
  ++ questions.map (fun item => csvQuestionField response (questionItemId item))

/-- exportAsCsv from the service: the header line followed by one line per
response, cells joined by commas and lines joined by newlines. -/
def exportAsCsv (form : Form) (responses : List FormResponse) (options : ExportOptions) :
    String :=
  String.intercalate "\n"
    (String.intercalate "," (csvHeaders form options)
      :: responses.map (fun r => String.intercalate "," (csvRow options (declaredQuestions form) r)))

/-- JS values the JSON serializer renders; undefinedJs marks a property whose value
is undefined (dropped inside objects, null inside arrays). -/
inductive Json where
  | str : String → Json
  | num : Int → Json
  | bool : Bool → Json
  | null : Json
  | undefinedJs : Json
  | arr : List Json → Json
  | obj : List (String × Json) → Json

/-- Whether a Json value is the undefined marker. -/
def Json.isUndefinedJs : Json → Bool
  | .undefinedJs => true
  | _ => false

/-- Escape of one character inside a JSON string literal, as JSON.stringify
performs it. -/
def jsonEscapeChar (c : Char) : List Char :=
  if c = '"' then ['\\', '"']
  else if c = '\\' then ['\\', '\\']
  else if c = '\n' then ['\\', 'n']
  else if c = '\t' then ['\\', 't']
  else if c = '\r' then ['\\', 'r']
  else if c.toNat = 8 then ['\\', 'b']
  else if c.toNat = 12 then ['\\', 'f']
  else if c.toNat < 32 then
    ['\\', 'u', '0', '0',
     (Nat.digitChar (c.toNat / 16)), (Nat.digitChar (c.toNat % 16))]
  else [c]

/-- JSON string literal with escapes, as JSON.stringify renders strings. -/
def jsonStr (s : String) : String :=
  "\"" ++ String.mk (s.data.flatMap jsonEscapeChar) ++ "\""

/-- Indentation of 2 spaces per depth level, the third argument of the
JSON.stringify call in exportAsJson. -/
def jsonPad (d : Nat) : String :=
  String.mk (List.replicate (2 * d) ' ')

mutual

/-- Rendering of JSON.stringify(v, null, 2) at nesting depth d. -/
def renderJson (d : Nat) : Json → String
  | .str s => jsonStr s
  | .num n => toString n
  | .bool b => if b then "true" else "false"
  | .null => "null"
  | .undefinedJs => "null"
  | .arr l =>
      let entries := renderArrEntries d l
      if entries.isEmpty then "[]"
      else "[\n" ++ String.intercalate ",\n" entries ++ "\n" ++ jsonPad d ++ "]"
  | .obj l =>
      let entries := renderObjEntries d l
      if entries.isEmpty then "\x7b\x7d"
      else "\x7b\n" ++ String.intercalate ",\n" entries ++ "\n" ++ jsonPad d ++ "\x7d"

/-- Rendered lines of an array body; undefined elements render as null. -/
def renderArrEntries (d : Nat) : List Json → List String
  | [] => []
  | v :: rest =>
      (jsonPad (d + 1) ++ (if v.isUndefinedJs then "null" else renderJson (d + 1) v))
        :: renderArrEntries d rest

/-- Rendered lines of an object body; undefined-valued properties are
dropped, as JSON.stringify drops them. -/
def renderObjEntries (d : Nat) : List (String × Json) → List String
  | [] => []
  | (k, v) :: rest =>
      if v.isUndefinedJs then renderObjEntries d rest
      else (jsonPad (d + 1) ++ jsonStr k ++ ": " ++ renderJson (d + 1) v)
            :: renderObjEntries d rest

end

/-- Optional string as a JS property value: the string, or undefined. -/
def optStrJson : Option String → Json
  | some s => .str s
  | none => .undefinedJs

/-- JS object property assignment obj[k] = v on an insertion-ordered object:
overwrite in place when the key exists, append otherwise. -/
def objSet (l : List (String × Json)) (k : String) (v : Json) : List (String × Json) :=
  match l with
  | [] => [(k, v)]
  | (k1, v1) :: rest => if k1 = k then (k1, v) :: rest else (k1, v1) :: objSet rest k v

/-- findQuestionById from the service: the first item whose question carries
the identifier. -/
def findQuestionById (form : Form) (questionId : String) : Option Item :=
  form.items.find? (fun item =>
    match item.questionItem with
    | some qi => qi.question.questionId = questionId
    | none => false)

/-- The flattened representation of one response in exportAsJson: responseId,
respondentEmail, optional timestamps, then one property per answer that
carries text values, keyed by the question title. -/
def flattenResponse (form : Form) (options : ExportOptions) (response : FormResponse) :
    Json :=
  let base : List (String × Json) :=
    [("responseId", .str response.responseId),
     ("respondentEmail", optStrJson response.respondentEmail)]
  let base :=
    if boolTruthy options.includeTimestamps then
      objSet (objSet base "createTime" (optStrJson response.createTime))
        "lastSubmittedTime" (optStrJson response.lastSubmittedTime)
    else base
  let withAnswers := response.answers.foldl
    (fun acc p =>
      let questionTitle :=
        match findQuestionById form p.1 with
        | some item => orElseStr item.title ("Question_" ++ p.1)
        | none => "Question_" ++ p.1
      match p.2.textAnswers with
      | some ta =>
          if ta.answers.length = 1 then
            objSet acc questionTitle (.str ((ta.answers.headD ⟨""⟩).value))
          else
            objSet acc questionTitle (.arr (ta.answers.map (fun a => .str a.value)))
      | none => acc)
    base
  .obj withAnswers

/-- Grade rendered as a JS object. -/
def gradeToJson (g : Grade) : Json :=
  .obj [("score", .num g.score), ("correct", .bool g.correct),
        ("feedback",
         match g.feedback with
         | some f => .obj [("text", .str f)]
         | none => .undefinedJs)]

/-- Answer rendered as a JS object for the non-flattened export. -/
def answerToJson (a : Answer) : Json :=
  .obj [("questionId", .str a.questionId),
        ("textAnswers",
         match a.textAnswers with
         | some ta =>
             .obj [("answers", .arr (ta.answers.map (fun t => .obj [("value", .str t.value)])))]
         | none => .undefinedJs),
        ("fileUploadAnswers",
         match a.fileUploadAnswers with
         | some fa =>
             .obj [("answers", .arr (fa.answers.map (fun f =>
               .obj [("fileId", .str f.fileId), ("fileName", .str f.fileName),
                     ("mimeType", .str f.mimeType)])))]
         | none => .undefinedJs),
        ("grade",
         match a.grade with
         | some g => gradeToJson g
         | none => .undefinedJs)]

/-- FormResponse rendered as a JS object for the non-flattened export. -/
def responseToJson (r : FormResponse) : Json :=
  .obj [("formId", .str r.formId), ("responseId", .str r.responseId),
        ("createTime", optStrJson r.createTime),
        ("lastSubmittedTime", optStrJson r.lastSubmittedTime),
        ("respondentEmail", optStrJson r.respondentEmail),
        ("answers", .obj (r.answers.map (fun p => (p.1, answerToJson p.2)))),
        ("totalScore",
         match r.totalScore with
         | some n => .num n
         | none => .undefinedJs)]

/-- exportAsJson from the service; now is the clock reading the source takes
from new Date().toISOString() for the metadata exportedAt field. -/
def exportAsJson (form : Form) (responses : List FormResponse) (options : ExportOptions)
    (now : String) : String :=
  let metadataPart : List (String × Json) :=
    if boolTruthy options.includeMetadata then
      [("metadata",
        .obj [("formId", optStrJson form.formId), ("title", .str form.info.title),
              ("description", optStrJson form.info.description),
              ("exportedAt", .str now),
              ("totalResponses", .num (responses.length : Int))])]
    else []
  let responsesPart : Json :=
    if boolTruthy options.flattenResponses then
      .arr (responses.map (flattenResponse form options))
    else
      .arr (responses.map responseToJson)
  renderJson 0 (.obj (metadataPart ++ [("responses", responsesPart)]))

/-- Fetch events observable at the provider boundary. -/
inductive FetchEvent where
  | formFetch : String → FetchEvent
  | responsesPage : String → FetchEvent
deriving DecidableEq

/-- One page of the provider's response listing. -/
structure PageResp where
  responses : Option (List FormResponse)
  nextPageToken : Option String
deriving DecidableEq

/-- A provider snapshot: the form, and the pages its response listing returns
in order; an exhausted provider yields empty pages. -/
structure Provider where
  form : Form
  pages : List PageResp
deriving DecidableEq

/-- The do-while pagination loop of getAllFormResponses: collect each page's
responses, continue while the next-page token is truthy, and record one fetch
event per page request. -/
def fetchPagesLoop (formId : String) : List PageResp → List FormResponse × List FetchEvent
  | [] => ([], [.responsesPage formId])
  | page :: rest =>
      let collected := page.responses.getD []
      if strTruthy page.nextPageToken then
        let next := fetchPagesLoop formId rest
        (collected ++ next.1, .responsesPage formId :: next.2)
      else (collected, [.responsesPage formId])

/-- getAllFormResponses from the service, against a provider snapshot, with
its fetch-event trace. -/
def getAllFormResponsesT (provider : Provider) (formId : String) :
    List FormResponse × List FetchEvent :=
  fetchPagesLoop formId provider.pages

/-- exportResponses from the service, against a provider snapshot: it fetches
the form, then every page of responses, and only then dispatches on the
format, raising the unsupported-format error for any other format.  The
second component is the fetch-event trace. -/
def exportResponsesT (provider : Provider) (formId : String) (options : ExportOptions)
    (now : String) : Except String String × List FetchEvent :=
  let form := provider.form
  let fetched := getAllFormResponsesT provider formId
  let events := FetchEvent.formFetch formId :: fetched.2
  if options.format = "json" then (.ok (exportAsJson form fetched.1 options now), events)
  else if options.format = "csv" then (.ok (exportAsCsv form fetched.1 options), events)
  else (.error ("Unsupported export format: " ++ options.format), events)

/-- Total of a frequency tally: sum of all its counts. -/
def tallyTotal (dist : List (String × Nat)) : Nat :=
  (dist.map (fun p => p.2)).sum

/-- Number of text values carried by a list of answers (whether empty-string
valued or not). -/
def textValueCount (answers : List Answer) : Nat :=
  (answers.map (fun a =>
    match a.textAnswers with
    | some ta => ta.answers.length
    | none => 0)).sum

/-- Number of non-empty text values carried by a list of answers, as the
claim words it. -/
def nonEmptyTextValueCount (answers : List Answer) : Nat :=
  (((answers.filterMap (fun a => a.textAnswers)).flatMap
      (fun ta => ta.answers.map (fun t => t.value))).filter (fun v => v ≠ "")).length

/-- Concrete choice answer carrying a single empty-string text value. -/
def c8Answer : Answer := ⟨"q", some ⟨[⟨""⟩]⟩, none, none⟩

/-- Concrete form with two declared questions and one non-question item. -/
def c4Form : Form :=
  ⟨some "f", ⟨"T", none⟩,
   [⟨none, some "Q1", some ⟨⟨"q1", none, none, none, false, false, false, false⟩⟩⟩,
    ⟨none, some "intro text", none⟩,
    ⟨none, some "Q2", some ⟨⟨"q2", none, none, none, false, false, false, false⟩⟩⟩]⟩

/-- Concrete response answering only the first question. -/
def c4Resp : FormResponse :=
  ⟨"f", "r1", none, none, none, [("q1", ⟨"q1", some ⟨[⟨"yes"⟩]⟩, none, none⟩)], none⟩

/-- Concrete scale answers with values 1, 3, 3, 5. -/
def scaleEx : List Answer :=
  [⟨"q", some ⟨[⟨"1"⟩]⟩, none, none⟩, ⟨"q", some ⟨[⟨"3"⟩]⟩, none, none⟩,
   ⟨"q", some ⟨[⟨"3"⟩]⟩, none, none⟩, ⟨"q", some ⟨[⟨"5"⟩]⟩, none, none⟩]

/-- Concrete response with a creation time only. -/
def c9RespA : FormResponse := ⟨"f", "r1", some "2024-05-01T10:00:00Z", none, none, [], none⟩

/-- Concrete response with a last-submission time only. -/
def c9RespB : FormResponse := ⟨"f", "r2", none, some "2024-04-01T09:00:00Z", none, [], none⟩

/-- Concrete form with no items for the time-range witness. -/
def c9Form : Form := ⟨some "f", ⟨"T", none⟩, []⟩

/-- Concrete one-question form shared by the export counterexamples. -/
def csvForm : Form :=
  ⟨some "f", ⟨"T", none⟩,
   [⟨none, some "Q1", some ⟨⟨"q1", none, none, none, false, false, false, false⟩⟩⟩]⟩

/-- Concrete response with no answers. -/
def csvResp : FormResponse := ⟨"f", "r1", none, none, none, [], none⟩

/-- Concrete response whose answer value contains a double quote. -/
def csvRespQ : FormResponse :=
  ⟨"f", "r2", none, none, none,
   [("q1", ⟨"q1", some ⟨[⟨"say \"hi\""⟩]⟩, none, none⟩)], none⟩

/-- Concrete provider with one page of one response. -/
def p0 : Provider := ⟨csvForm, [⟨some [csvResp], none⟩]⟩

/-- Concrete answer carrying only a file-upload reference. -/
def fileOnlyAnswer : Answer := ⟨"q1", none, some ⟨[⟨"fid1", "notes.pdf", "application/pdf"⟩]⟩, none⟩

/-! Helper lemmas. -/

theorem answersForQuestion_length_le (rs : List FormResponse) (id : String) :
    (answersForQuestion rs id).length ≤ rs.length := by
  unfold answersForQuestion
  calc ((rs.map (fun r => jsLookup r.answers id)).reduceOption).length
      ≤ (rs.map (fun r => jsLookup r.answers id)).length := List.reduceOption_length_le _
    _ = rs.length := List.length_map _ _

theorem analyzeQuestionResponses_rate_eq (q : Question) (t id : String)
    (rs : List FormResponse) :
    (analyzeQuestionResponses q t id rs).statistics.responseRate =
      if rs.length > 0 then
        (((answersForQuestion rs id).length : ℚ) / (rs.length : ℚ)) * 100
      else 0 := by
  unfold analyzeQuestionResponses
  rcases q with ⟨qid, cq, sq, tq, dq, tmq, fq, rq⟩
  cases cq <;> cases sq <;> cases tq <;> cases dq <;> cases tmq <;> cases fq <;> cases rq <;>
    simp [mergeScale, mergeText]

/-! Claim C5. -/

/-- C5: for every question and every fetched response set, the computed
responseRate lies in the interval [0, 100]; on an empty response set the rate
is 0 for every question rather than NaN or an omitted field. -/
theorem analyzeQuestionResponses_responseRate_bounds :
    (∀ (q : Question) (t id : String) (rs : List FormResponse),
        0 ≤ (analyzeQuestionResponses q t id rs).statistics.responseRate ∧
        (analyzeQuestionResponses q t id rs).statistics.responseRate ≤ 100) ∧
    (∀ (q : Question) (t id : String),
        (analyzeQuestionResponses q t id []).statistics.responseRate = 0) := by
  constructor
  · intro q t id rs
    rw [analyzeQuestionResponses_rate_eq]
    by_cases h : rs.length > 0
    · rw [if_pos h]
      have hle : ((answersForQuestion rs id).length : ℚ) ≤ (rs.length : ℚ) := by
        exact_mod_cast answersForQuestion_length_le rs id
      have hpos : (0 : ℚ) < (rs.length : ℚ) := by exact_mod_cast h
      constructor
      · positivity
      · have h1 : ((answersForQuestion rs id).length : ℚ) / (rs.length : ℚ) ≤ 1 :=
          (div_le_one hpos).mpr hle
        nlinarith
    · rw [if_neg h]
      norm_num
  · intro q t id
    rw [analyzeQuestionResponses_rate_eq]
    simp

/-! Claim C8. -/

theorem tallyTotal_bump (dist : List (String × Nat)) (v : String) :
    tallyTotal (bump dist v) = tallyTotal dist + 1 := by
  induction dist with
  | nil => simp [bump, tallyTotal]
  | cons p rest ih =>
      obtain ⟨k, n⟩ := p
      by_cases h : k = v <;> simp [bump, h, tallyTotal] at ih ⊢ <;> omega

theorem tallyTotal_foldl_values (ts : List TextAnswer) (dist : List (String × Nat)) :
    tallyTotal (ts.foldl (fun d t => bump d t.value) dist) = tallyTotal dist + ts.length := by
  induction ts generalizing dist with
  | nil => simp
  | cons t rest ih =>
      simp only [List.foldl_cons, List.length_cons, ih, tallyTotal_bump]
      omega

/-- C8 amended: for every choice question, the sum of the counts in the
frequency tally equals the number of all answer-values processed across all
respondents' text values, empty-string values included; this may exceed the
respondent count for multi-select. -/
theorem analyzeChoiceQuestion_tally_total (answers : List Answer) :
    tallyTotal (analyzeChoiceQuestion answers) = textValueCount answers := by
  have key : ∀ (l : List Answer) (dist : List (String × Nat)),
      tallyTotal (l.foldl
        (fun dist a =>
          match a.textAnswers with
          | some ta => ta.answers.foldl (fun d t => bump d t.value) dist
          | none => dist) dist)
        = tallyTotal dist + textValueCount l := by
    intro l
    induction l with
    | nil => intro dist; simp [textValueCount]
    | cons a rest ih =>
        intro dist
        cases hta : a.textAnswers with
        | none => simp [hta, ih, textValueCount, List.map_cons, List.sum_cons]
        | some ta =>
            simp only [List.foldl_cons, hta, ih, tallyTotal_foldl_values,
              textValueCount, List.map_cons, List.sum_cons]
            omega
  have h0 : tallyTotal [] = 0 := rfl
  simpa [analyzeChoiceQuestion, h0] using key answers []

/-- C8 counterexample: an answer whose only text value is the empty string is
counted by the tally, so the tally total is 1 while the number of non-empty
answer-values processed is 0; the claim's equality fails at this input. -/
theorem analyzeChoiceQuestion_counts_empty_values :
    tallyTotal (analyzeChoiceQuestion [c8Answer]) = 1 ∧
    nonEmptyTextValueCount [c8Answer] = 0 ∧
    tallyTotal (analyzeChoiceQuestion [c8Answer]) ≠ nonEmptyTextValueCount [c8Answer] := by
  decide

/-! Claim C4. -/

theorem analyzeQuestionResponses_questionId (q : Question) (t id : String)
    (rs : List FormResponse) :
    (analyzeQuestionResponses q t id rs).questionId = id := rfl

theorem analyzeQuestionResponses_responseCount (q : Question) (t id : String)
    (rs : List FormResponse) :
    (analyzeQuestionResponses q t id rs).responseCount
      = (answersForQuestion rs id).length := rfl

theorem summaries_filterMap (items : List Item) (rs : List FormResponse) :
    ((items.filterMap (fun item =>
        match item.questionItem with
        | some qi =>
            some (analyzeQuestionResponses qi.question
              (orElseStr item.title "Untitled Question") qi.question.questionId rs)
        | none => none)).length
      = (items.filter (fun item => item.questionItem.isSome)).length) ∧
    ((items.filterMap (fun item =>
        match item.questionItem with
        | some qi =>
            some (analyzeQuestionResponses qi.question
              (orElseStr item.title "Untitled Question") qi.question.questionId rs)
        | none => none)).map (fun s => s.questionId)
      = (items.filter (fun item => item.questionItem.isSome)).map questionItemId) ∧
    (∀ s ∈ items.filterMap (fun item =>
        match item.questionItem with
        | some qi =>
            some (analyzeQuestionResponses qi.question
              (orElseStr item.title "Untitled Question") qi.question.questionId rs)
        | none => none),
        s.responseCount = (answersForQuestion rs s.questionId).length) := by
  induction items with
  | nil => simp
  | cons item rest ih =>
      obtain ⟨h1, h2, h3⟩ := ih
      cases hqi : item.questionItem with
      | none =>
          refine ⟨?_, ?_, ?_⟩
          · simpa [hqi] using h1
          · simpa [hqi] using h2
          · intro s hs
            rw [List.filterMap_cons] at hs
            simp only [hqi] at hs
            exact h3 s hs
      | some qi =>
          refine ⟨?_, ?_, ?_⟩
          · simpa [hqi] using h1
          · simp [hqi, questionItemId, h2, analyzeQuestionResponses_questionId]
          · intro s hs
            rw [List.filterMap_cons] at hs
            simp only [hqi, List.mem_cons] at hs
            rcases hs with hs | hs
            · subst hs
              rw [analyzeQuestionResponses_responseCount,
                analyzeQuestionResponses_questionId]
            · exact h3 s hs

/-- C4: generateResponseSummary returns exactly one QuestionSummary per
question declared on the form, in display order, and each summary counts the
responses that answered its question, so an unanswered question still appears
with responseCount 0. -/
theorem generateResponseSummary_summary_per_question (form : Form)
    (rs : List FormResponse) :
    ((generateResponseSummary form rs).questionSummaries.length
        = (declaredQuestions form).length) ∧
    ((generateResponseSummary form rs).questionSummaries.map (fun s => s.questionId)
        = (declaredQuestions form).map questionItemId) ∧
    (∀ s ∈ (generateResponseSummary form rs).questionSummaries,
        s.responseCount = (answersForQuestion rs s.questionId).length) := by
  have hsum : (generateResponseSummary form rs).questionSummaries
      = form.items.filterMap (fun item =>
          match item.questionItem with
          | some qi =>
              some (analyzeQuestionResponses qi.question
                (orElseStr item.title "Untitled Question") qi.question.questionId rs)
          | none => none) := rfl
  have hdq : declaredQuestions form
      = form.items.filter (fun item => item.questionItem.isSome) := rfl
  rw [hsum, hdq]
  exact summaries_filterMap form.items rs

/-- C4 witness: on a concrete form with two declared questions and a response
answering only one of them, the summary still has exactly two entries, one per
declared question, and the unanswered question has answer count 0. -/
theorem generateResponseSummary_summary_per_question_witness :
    (generateResponseSummary c4Form [c4Resp]).questionSummaries.length = 2 ∧
    (generateResponseSummary c4Form [c4Resp]).questionSummaries.map (fun s => s.questionId)
      = ["q1", "q2"] ∧
    (answersForQuestion [c4Resp] "q2").length = 0 := by
  have h := generateResponseSummary_summary_per_question c4Form [c4Resp]
  refine ⟨?_, ?_, by decide⟩
  · rw [h.1]; decide
  · rw [h.2.1]; decide

/-! Claim C6. -/

theorem sorted_le_getLast? {α : Type} {r : α → α → Prop} [IsRefl α r] [IsTrans α r] :
    ∀ (l : List α), l.Sorted r → ∀ m, l.getLast? = some m → ∀ x ∈ l, r x m := by
  intro l
  induction l with
  | nil =>
      intro _ m hm
      simp at hm
  | cons a t ih =>
      intro hs m hm x hx
      cases t with
      | nil =>
          have hma : m = a := by simpa using hm.symm
          subst hma
          rcases List.mem_cons.mp hx with h | h
          · subst h; exact IsRefl.refl _
          · simp at h
      | cons b t2 =>
          rw [List.getLast?_cons_cons] at hm
          rcases List.mem_cons.mp hx with h | h
          · subst h
            have hab : r x b := List.rel_of_sorted_cons hs b (List.mem_cons_self b t2)
            have hbm : r b m := ih hs.of_cons m hm b (List.mem_cons_self b t2)
            exact IsTrans.trans x b m hab hbm
          · exact ih hs.of_cons m hm x h

theorem insertionSort_ne_nil {α : Type} (r : α → α → Prop) [DecidableRel r]
    {l : List α} (h : l ≠ []) : List.insertionSort r l ≠ [] := by
  intro h0
  apply h
  have hlen := (List.perm_insertionSort r l).length_eq
  rw [h0] at hlen
  exact List.length_eq_zero.mp hlen.symm

theorem foldl_add_eq_sum (l : List Int) :
    l.foldl (fun acc val => acc + val) 0 = l.sum := by
  have key : ∀ (l : List Int) (init : Int),
      l.foldl (fun acc val => acc + val) init = init + l.sum := by
    intro l
    induction l with
    | nil => intro init; simp
    | cons a t ih => intro init; simp [ih]; ring
  simpa using key l 0

/-- C6: for every linear-scale (and identically rating) question, the analyzer
keeps the integer parses of the first text values, and over the surviving
values its average is the arithmetic mean, its min and max are the list
minimum and maximum, and its median is the central element (or the mean of
the two central elements) of any ascending sort of the values; when no value
survives all four fields are omitted. -/
theorem analyzeScaleQuestion_statistics (answers : List Answer) :
    analyzeRatingQuestion answers = analyzeScaleQuestion answers ∧
    (scaleValues answers = [] →
        analyzeScaleQuestion answers = ⟨none, none, none, none⟩) ∧
    (scaleValues answers ≠ [] →
        (analyzeScaleQuestion answers).average
            = some ((((scaleValues answers).sum : Int) : ℚ)
                / (((scaleValues answers).length : Nat) : ℚ)) ∧
        (analyzeScaleQuestion answers).min = (scaleValues answers).min? ∧
        (analyzeScaleQuestion answers).max = (scaleValues answers).max? ∧
        (∀ s : List Int, s.Perm (scaleValues answers) → s.Sorted (· ≤ ·) →
            (analyzeScaleQuestion answers).median
              = some (if s.length % 2 = 0 then
                        (((s.getD (s.length / 2 - 1) 0 : Int) : ℚ)
                          + ((s.getD (s.length / 2) 0 : Int) : ℚ)) / 2
                      else ((s.getD (s.length / 2) 0 : Int) : ℚ)))) := by
  refine ⟨rfl, ?_, ?_⟩
  · intro h
    unfold analyzeScaleQuestion
    rw [h]
    simp
  · intro hne
    haveI : Std.Antisymm (fun (a b : Int) => a ≤ b) := ⟨fun h1 h2 => le_antisymm h1 h2⟩
    have hlen : ¬ (scaleValues answers).length = 0 := by
      simpa [List.length_eq_zero] using hne
    have hres : analyzeScaleQuestion answers =
        ⟨some (((((scaleValues answers).foldl (fun acc val => acc + val) 0 : Int)) : ℚ)
            / (((scaleValues answers).length : Nat) : ℚ)),
         some (if (scaleValues answers).length % 2 = 0 then
                 ((((List.insertionSort (· ≤ ·) (scaleValues answers)).getD
                     ((scaleValues answers).length / 2 - 1) 0 : Int) : ℚ)
                   + (((List.insertionSort (· ≤ ·) (scaleValues answers)).getD
                       ((scaleValues answers).length / 2) 0 : Int) : ℚ)) / 2
               else (((List.insertionSort (· ≤ ·) (scaleValues answers)).getD
                       ((scaleValues answers).length / 2) 0 : Int) : ℚ)),
         some ((List.insertionSort (· ≤ ·) (scaleValues answers)).headD 0),
         some ((List.insertionSort (· ≤ ·) (scaleValues answers)).getLastD 0)⟩ := by
      unfold analyzeScaleQuestion
      rw [if_neg hlen]
    have hperm : (List.insertionSort (· ≤ ·) (scaleValues answers)).Perm
        (scaleValues answers) := List.perm_insertionSort _ _
    have hsort : (List.insertionSort (· ≤ ·) (scaleValues answers)).Sorted (· ≤ ·) :=
      List.sorted_insertionSort _ _
    have hsne : List.insertionSort (· ≤ ·) (scaleValues answers) ≠ [] :=
      insertionSort_ne_nil _ hne
    refine ⟨?_, ?_, ?_, ?_⟩
    · rw [hres]
      simp only [foldl_add_eq_sum]
    · rw [hres]
      obtain ⟨a, t, hst⟩ := List.exists_cons_of_ne_nil hsne
      have hmem : a ∈ scaleValues answers :=
        hperm.subset (by rw [hst]; exact List.mem_cons_self a t)
      have hmin : ∀ b ∈ scaleValues answers, a ≤ b := by
        intro b hb
        have hbs : b ∈ List.insertionSort (· ≤ ·) (scaleValues answers) :=
          hperm.symm.subset hb
        rw [hst] at hbs
        rcases List.mem_cons.mp hbs with h | h
        · subst h; exact le_refl _
        · exact List.rel_of_sorted_cons (hst ▸ hsort) b h
      have hm? : (scaleValues answers).min? = some a :=
        (List.min?_eq_some_iff (fun a : Int => le_refl a)
          (fun a b => min_choice a b) (fun a b c => le_min_iff)).mpr ⟨hmem, hmin⟩
      rw [hm?, hst]
      rfl
    · rw [hres]
      obtain ⟨m, hm⟩ : ∃ m,
          (List.insertionSort (· ≤ ·) (scaleValues answers)).getLast? = some m :=
        Option.isSome_iff_exists.mp (List.getLast?_isSome.mpr hsne)
      have hmem : m ∈ scaleValues answers := by
        rcases List.getLast?_eq_some_iff.mp hm with ⟨ys, hys⟩
        exact hperm.subset (by rw [hys]; simp)
      have hmax : ∀ b ∈ scaleValues answers, b ≤ m := by
        intro b hb
        exact sorted_le_getLast? _ hsort m hm b (hperm.symm.subset hb)
      have hM? : (scaleValues answers).max? = some m :=
        (List.max?_eq_some_iff (fun a : Int => le_refl a)
          (fun a b => max_choice a b) (fun a b c => max_le_iff)).mpr ⟨hmem, hmax⟩
      rw [hM?, List.getLastD_eq_getLast?, hm]
      rfl
    · intro s hsp hss
      have hseq : s = List.insertionSort (· ≤ ·) (scaleValues answers) :=
        List.eq_of_perm_of_sorted (hsp.trans hperm.symm) hss hsort
      have hslen : s.length = (scaleValues answers).length := hsp.length_eq
      rw [hres, hslen, hseq]

/-- C6 witness: the example of the claim, scale answers 1, 3, 3, 5 give
average 3, median 3, minimum 1 and maximum 5. -/
theorem analyzeScaleQuestion_statistics_witness :
    (analyzeScaleQuestion scaleEx).average = some 3 ∧
    (analyzeScaleQuestion scaleEx).median = some 3 ∧
    (analyzeScaleQuestion scaleEx).min = some 1 ∧
    (analyzeScaleQuestion scaleEx).max = some 5 := by
  have hv : scaleValues scaleEx = [1, 3, 3, 5] := by decide
  have h := (analyzeScaleQuestion_statistics scaleEx).2.2 (by rw [hv]; simp)
  obtain ⟨havg, hmin, hmax, hmed⟩ := h
  refine ⟨?_, ?_, ?_, ?_⟩
  · rw [havg, hv]
    norm_num
  · have hm := hmed [1, 3, 3, 5] (by rw [hv]) (by decide)
    rw [hm]
    norm_num
  · rw [hmin, hv]
    decide
  · rw [hmax, hv]
    decide

/-! Claim C9. -/

theorem generateResponseSummary_timeRange_eq (form : Form) (rs : List FormResponse) :
    (generateResponseSummary form rs).responseTimeRange =
      if (collectResponseTimes rs).length > 0 then
        some ((List.insertionSort strDataLe (collectResponseTimes rs)).headD "",
              (List.insertionSort strDataLe (collectResponseTimes rs)).reverse.headD "")
      else none := rfl

/-- C9: the summary's time range is present exactly when at least one
response carries a usable timestamp (last-submission time when truthy, else
creation time), and its earliest and latest components are the lexicographic
minimum and maximum of the collected timestamp strings. -/
theorem generateResponseSummary_time_range (form : Form) (rs : List FormResponse) :
    ((generateResponseSummary form rs).responseTimeRange.isSome
        ↔ collectResponseTimes rs ≠ []) ∧
    (∀ e l, (generateResponseSummary form rs).responseTimeRange = some (e, l) →
        e ∈ collectResponseTimes rs ∧ l ∈ collectResponseTimes rs ∧
        ∀ t ∈ collectResponseTimes rs, strDataLe e t ∧ strDataLe t l) := by
  rw [generateResponseSummary_timeRange_eq]
  by_cases h : (collectResponseTimes rs).length > 0
  · have hne : collectResponseTimes rs ≠ [] := by
      intro h0
      rw [h0] at h
      simp at h
    rw [if_pos h]
    have hperm : (List.insertionSort strDataLe (collectResponseTimes rs)).Perm
        (collectResponseTimes rs) := List.perm_insertionSort _ _
    have hsort : (List.insertionSort strDataLe (collectResponseTimes rs)).Sorted strDataLe :=
      List.sorted_insertionSort _ _
    have hsne : List.insertionSort strDataLe (collectResponseTimes rs) ≠ [] :=
      insertionSort_ne_nil _ hne
    constructor
    · simp [hne]
    · intro e l hel
      obtain ⟨a, t, hst⟩ := List.exists_cons_of_ne_nil hsne
      obtain ⟨m, hm⟩ : ∃ m,
          (List.insertionSort strDataLe (collectResponseTimes rs)).getLast? = some m :=
        Option.isSome_iff_exists.mp (List.getLast?_isSome.mpr hsne)
      have hhead : (List.insertionSort strDataLe (collectResponseTimes rs)).headD "" = a := by
        rw [hst]; rfl
      have hlast : (List.insertionSort strDataLe (collectResponseTimes rs)).reverse.headD ""
          = m := by
        rw [List.headD_eq_head?, List.head?_reverse, hm]
        rfl
      rw [hhead, hlast] at hel
      simp only [Option.some.injEq, Prod.mk.injEq] at hel
      obtain ⟨he, hl⟩ := hel
      subst he
      subst hl
      refine ⟨hperm.subset (by rw [hst]; exact List.mem_cons_self a t), ?_, ?_⟩
      · rcases List.getLast?_eq_some_iff.mp hm with ⟨ys, hys⟩
        exact hperm.subset (by rw [hys]; simp)
      · intro t2 ht2
        have ht2s : t2 ∈ List.insertionSort strDataLe (collectResponseTimes rs) :=
          hperm.symm.subset ht2
        constructor
        · rw [hst] at ht2s
          rcases List.mem_cons.mp ht2s with h2 | h2
          · subst h2; exact IsRefl.refl _
          · exact List.rel_of_sorted_cons (hst ▸ hsort) t2 h2
        · exact sorted_le_getLast? _ hsort m hm t2 ht2s
  · rw [if_neg h]
    have h0 : (collectResponseTimes rs).length = 0 := by omega
    have hempty : collectResponseTimes rs = [] := List.length_eq_zero.mp h0
    constructor
    · simp [hempty]
    · intro e l hel
      simp at hel

/-- C9 witness: on two concrete responses the range is present, earliest and
latest are the lexicographic extremes, and the bound claims instantiate. -/
theorem generateResponseSummary_time_range_witness :
    (generateResponseSummary c9Form [c9RespA, c9RespB]).responseTimeRange
        = some ("2024-04-01T09:00:00Z", "2024-05-01T10:00:00Z") ∧
    "2024-04-01T09:00:00Z" ∈ collectResponseTimes [c9RespA, c9RespB] ∧
    "2024-05-01T10:00:00Z" ∈ collectResponseTimes [c9RespA, c9RespB] ∧
    strDataLe "2024-04-01T09:00:00Z" "2024-05-01T10:00:00Z" := by
  have hr : (generateResponseSummary c9Form [c9RespA, c9RespB]).responseTimeRange
      = some ("2024-04-01T09:00:00Z", "2024-05-01T10:00:00Z") := by decide
  have h := (generateResponseSummary_time_range c9Form [c9RespA, c9RespB]).2 _ _ hr
  exact ⟨hr, h.1, h.2.1, (h.2.2 _ h.2.1).1⟩

/-! Claim C1. -/

theorem escapeQuotes_count (s : String) :
    (escapeQuotes s).data.count '"' = 2 * s.data.count '"' := by
  have hdata : (escapeQuotes s).data
      = s.data.flatMap (fun c => if c = '"' then ['"', '"'] else [c]) := rfl
  rw [hdata]
  induction s.data with
  | nil => simp
  | cons c cs ih =>
      by_cases hc : c = '"' <;>
        simp [hc, ih, List.count_cons, List.count_append, Nat.mul_add]

/-- C1 amended: the CSV output is the comma-join of the header cells and of
one row of cells per response; within a data row, the cell of a question whose
answer carries text values is wrapped in double quotes with internal double
quotes doubled, while a missing answer (or an answer without text values)
renders as an empty unquoted cell, and the responseId, timestamp and
respondentEmail cells are unquoted raw strings. -/
theorem exportAsCsv_field_rendering (form : Form) (rs : List FormResponse)
    (opts : ExportOptions) :
    (exportAsCsv form rs opts = String.intercalate "\n"
        (String.intercalate "," (csvHeaders form opts)
          :: rs.map (fun r => String.intercalate ","
              (csvRow opts (declaredQuestions form) r)))) ∧
    (∀ (r : FormResponse) (qid : String) (ta : TextAnswers),
        (jsLookup r.answers qid).bind (fun a => a.textAnswers) = some ta →
        csvQuestionField r qid
            = "\"" ++ escapeQuotes
                (String.intercalate "; " (ta.answers.map (fun a => a.value))) ++ "\"" ∧
        (escapeQuotes (String.intercalate "; " (ta.answers.map (fun a => a.value)))).data.count '"'
            = 2 * (String.intercalate "; " (ta.answers.map (fun a => a.value))).data.count '"') ∧
    (∀ (r : FormResponse) (qid : String),
        (jsLookup r.answers qid).bind (fun a => a.textAnswers) = none →
        csvQuestionField r qid = "") := by
  refine ⟨rfl, ?_, ?_⟩
  · intro r qid ta h
    refine ⟨?_, escapeQuotes_count _⟩
    unfold csvQuestionField
    rw [h]
  · intro r qid h
    unfold csvQuestionField
    rw [h]

/-- C1 counterexample: with a response that did not answer the question, the
data row is r1 comma comma, ending in a bare comma, so the missing answer is
an empty unquoted field and not the claimed quoted empty field; the metadata
cells are unquoted as well. -/
theorem exportAsCsv_missing_answer_unquoted :
    exportAsCsv csvForm [csvResp] ⟨"csv", none, none, none⟩
        = "responseId,respondentEmail,Q1\nr1,," ∧
    (exportAsCsv csvForm [csvResp] ⟨"csv", none, none, none⟩).data.getLast?
        = some ',' := by
  decide

/-- C1 witness: on a concrete answer containing a double quote, the rendered
cell is quoted with the inner quote doubled, and the quote count doubles. -/
theorem exportAsCsv_field_rendering_witness :
    csvQuestionField csvRespQ "q1" = "\"say \"\"hi\"\"\"" ∧
    (escapeQuotes (String.intercalate "; "
        ((⟨[⟨"say \"hi\""⟩]⟩ : TextAnswers).answers.map (fun a => a.value)))).data.count '"'
      = 2 * (String.intercalate "; "
        ((⟨[⟨"say \"hi\""⟩]⟩ : TextAnswers).answers.map (fun a => a.value))).data.count '"' := by
  have h := (exportAsCsv_field_rendering csvForm [csvRespQ] ⟨"csv", none, none, none⟩).2.1
    csvRespQ "q1" ⟨[⟨"say \"hi\""⟩]⟩ (by decide)
  refine ⟨?_, h.2⟩
  rw [h.1]
  decide

/-! Claim C2. -/

/-- C2 corrected: for any format other than json and csv, exportResponses
raises the unsupported-format error, but only after fetching the form and
every page of responses; the fetch trace is never empty. -/
theorem exportResponsesT_unsupported_format_after_fetch (provider : Provider)
    (formId : String) (options : ExportOptions) (now : String)
    (hj : options.format ≠ "json") (hc : options.format ≠ "csv") :
    (exportResponsesT provider formId options now).1
        = Except.error ("Unsupported export format: " ++ options.format) ∧
    (exportResponsesT provider formId options now).2
        = FetchEvent.formFetch formId :: (getAllFormResponsesT provider formId).2 ∧
    (exportResponsesT provider formId options now).2 ≠ [] := by
  refine ⟨?_, ?_, ?_⟩
  all_goals simp [exportResponsesT, hj, hc]

/-- C2 witness: the amended statement instantiated at a concrete provider and
the unsupported format xml. -/
theorem exportResponsesT_unsupported_format_after_fetch_witness :
    (exportResponsesT p0 "f" ⟨"xml", none, none, none⟩ "now").1
        = Except.error ("Unsupported export format: " ++ "xml") ∧
    (exportResponsesT p0 "f" ⟨"xml", none, none, none⟩ "now").2
        = FetchEvent.formFetch "f" :: (getAllFormResponsesT p0 "f").2 ∧
    (exportResponsesT p0 "f" ⟨"xml", none, none, none⟩ "now").2 ≠ [] :=
  exportResponsesT_unsupported_format_after_fetch p0 "f" ⟨"xml", none, none, none⟩ "now"
    (by decide) (by decide)

/-- C2 counterexample: with format xml against a concrete provider, the error
is raised, yet the fetch trace records the form fetch and a response-page
fetch, so the error is not raised before any fetch occurs as claimed. -/
theorem exportResponsesT_fetches_despite_bad_format :
    (exportResponsesT p0 "f" ⟨"xml", none, none, none⟩ "now").1
        = Except.error "Unsupported export format: xml" ∧
    (exportResponsesT p0 "f" ⟨"xml", none, none, none⟩ "now").2
        = [FetchEvent.formFetch "f", FetchEvent.responsesPage "f"] :=
  ⟨rfl, rfl⟩

/-! Claim C3. -/

/-- C3 amended: exportAsCsv takes no clock reading at all, and exportAsJson
is independent of the clock whenever the metadata block is not requested;
with includeMetadata truthy its output embeds the exportedAt clock reading,
so the serializer is a pure function of (form, responses, options) only up to
that timestamp. -/
theorem exportAsJson_pure_without_metadata (form : Form) (rs : List FormResponse)
    (opts : ExportOptions) (now1 now2 : String)
    (h : boolTruthy opts.includeMetadata = false) :
    exportAsJson form rs opts now1 = exportAsJson form rs opts now2 := by
  unfold exportAsJson
  rw [h]
  simp

/-- C3 witness: the amended statement instantiated at a concrete form with
includeMetadata omitted and two different clock readings. -/
theorem exportAsJson_pure_without_metadata_witness :
    exportAsJson csvForm [csvResp] ⟨"json", none, none, none⟩ "2024-01-01T00:00:00.000Z"
      = exportAsJson csvForm [csvResp] ⟨"json", none, none, none⟩ "2025-06-15T12:00:00.000Z" :=
  exportAsJson_pure_without_metadata csvForm [csvResp] ⟨"json", none, none, none⟩
    "2024-01-01T00:00:00.000Z" "2025-06-15T12:00:00.000Z" rfl

/-- C3 counterexample: with includeMetadata requested, two invocations with
identical form, responses and options but different clock readings return
different strings, so the serializer is not a pure function of (form, fetched
responses, options). -/
theorem exportAsJson_depends_on_clock :
    exportAsJson csvForm [] ⟨"json", some true, none, none⟩ "2024-01-01T00:00:00.000Z"
      ≠ exportAsJson csvForm [] ⟨"json", some true, none, none⟩ "2025-06-15T12:00:00.000Z" := by
  decide

/-! Claim C7. -/

/-- C7 amended: when the caller omits includeMetadata, includeTimestamps or
flattenResponses, each omitted boolean behaves as false, exactly as if false
had been passed: the metadata block is omitted, per-response timestamps are
omitted, and responses are not flattened. -/
theorem export_options_omitted_behave_as_false :
    (∀ (form : Form) (rs : List FormResponse) (now fmt : String),
        exportAsJson form rs ⟨fmt, none, none, none⟩ now
          = exportAsJson form rs ⟨fmt, some false, some false, some false⟩ now) ∧
    (∀ (form : Form) (rs : List FormResponse) (fmt : String),
        exportAsCsv form rs ⟨fmt, none, none, none⟩
          = exportAsCsv form rs ⟨fmt, some false, some false, some false⟩) :=
  ⟨fun _ _ _ _ => rfl, fun _ _ _ => rfl⟩

/-- C7 counterexample: with all three booleans omitted the JSON export of an
empty response list is only the responses array, with no metadata block, while
passing true for the booleans yields a different string; omitted booleans do
not default to true. -/
theorem export_options_omitted_not_true :
    exportAsJson csvForm [] ⟨"json", none, none, none⟩ "NOW"
        = "\x7b\n  \"responses\": []\n\x7d" ∧
    exportAsJson csvForm [] ⟨"json", some true, some true, some true⟩ "NOW"
        ≠ exportAsJson csvForm [] ⟨"json", none, none, none⟩ "NOW" := by
  decide

/-! Claim C10. -/

theorem jsLookup_textless_middle (l1 l2 : List (String × Answer)) (q : String)
    (a : Answer) (hta : a.textAnswers = none)
    (hq : ∀ p ∈ l1 ++ l2, p.1 ≠ q) (qid : String) :
    ((jsLookup (l1 ++ (q, a) :: l2) qid).bind (fun x => x.textAnswers))
      = ((jsLookup (l1 ++ l2) qid).bind (fun x => x.textAnswers)) := by
  unfold jsLookup
  by_cases hqq : qid = q
  · subst hqq
    have h1 : l1.find? (fun p => p.1 = qid) = none := by
      rw [List.find?_eq_none]
      intro p hp
      simpa using hq p (List.mem_append.mpr (Or.inl hp))
    have h2 : l2.find? (fun p => p.1 = qid) = none := by
      rw [List.find?_eq_none]
      intro p hp
      simpa using hq p (List.mem_append.mpr (Or.inr hp))
    rw [List.find?_append, List.find?_append, h1, h2,
      List.find?_cons_of_pos _ (by simp)]
    simp [hta]
  · rw [List.find?_append, List.find?_append,
      List.find?_cons_of_neg _ (by simp [Ne.symm]; exact fun h => hqq h.symm)]

theorem flattenResponse_textless (form : Form) (opts : ExportOptions)
    (fid rid : String) (ct lst em : Option String) (ts : Option Int)
    (l1 l2 : List (String × Answer)) (q : String) (a : Answer)
    (hta : a.textAnswers = none) :
    flattenResponse form opts ⟨fid, rid, ct, lst, em, l1 ++ (q, a) :: l2, ts⟩
      = flattenResponse form opts ⟨fid, rid, ct, lst, em, l1 ++ l2, ts⟩ := by
  unfold flattenResponse
  simp only [List.foldl_append, List.foldl_cons]
  congr 2
  simp [hta]

theorem csvRow_textless (opts : ExportOptions) (questions : List Item)
    (fid rid : String) (ct lst em : Option String) (ts : Option Int)
    (l1 l2 : List (String × Answer)) (q : String) (a : Answer)
    (hta : a.textAnswers = none)
    (hq : ∀ p ∈ l1 ++ l2, p.1 ≠ q) :
    csvRow opts questions ⟨fid, rid, ct, lst, em, l1 ++ (q, a) :: l2, ts⟩
      = csvRow opts questions ⟨fid, rid, ct, lst, em, l1 ++ l2, ts⟩ := by
  unfold csvRow
  congr 1
  apply List.map_congr_left
  intro item _
  unfold csvQuestionField
  rw [jsLookup_textless_middle l1 l2 q a hta hq]

/-- C10: an answer carrying no text values (for example only file-upload
references or a grade) is serialized exactly like an absent answer: with
flattening on, the JSON export of the response list with the answer present
equals the export with the answer removed, and the CSV export likewise, so
the exports cannot distinguish such an answer from an unanswered question. -/
theorem export_textless_answer_like_missing (form : Form) (opts : ExportOptions)
    (now : String) (pre post : List FormResponse) (fid rid : String)
    (ct lst em : Option String) (ts : Option Int)
    (l1 l2 : List (String × Answer)) (q : String) (a : Answer)
    (hta : a.textAnswers = none)
    (hq : ∀ p ∈ l1 ++ l2, p.1 ≠ q) :
    (boolTruthy opts.flattenResponses = true →
        exportAsJson form (pre ++ ⟨fid, rid, ct, lst, em, l1 ++ (q, a) :: l2, ts⟩ :: post) opts now
          = exportAsJson form (pre ++ ⟨fid, rid, ct, lst, em, l1 ++ l2, ts⟩ :: post) opts now) ∧
    exportAsCsv form (pre ++ ⟨fid, rid, ct, lst, em, l1 ++ (q, a) :: l2, ts⟩ :: post) opts
      = exportAsCsv form (pre ++ ⟨fid, rid, ct, lst, em, l1 ++ l2, ts⟩ :: post) opts := by
  constructor
  · intro hflat
    unfold exportAsJson
    simp only [hflat, if_true, List.length_append, List.length_cons,
      List.map_append, List.map_cons]
    rw [flattenResponse_textless form opts fid rid ct lst em ts l1 l2 q a hta]
  · unfold exportAsCsv
    simp only [List.map_append, List.map_cons]
    rw [csvRow_textless opts (declaredQuestions form) fid rid ct lst em ts l1 l2 q a hta hq]

/-- C10 witness: a concrete response whose only answer is a file upload
exports, in flattened JSON and in CSV, identically to the same response with
no answers at all. -/
theorem export_textless_answer_like_missing_witness :
    exportAsJson csvForm [⟨"f", "r1", none, none, none, [("q1", fileOnlyAnswer)], none⟩]
        ⟨"json", none, none, some true⟩ "NOW"
      = exportAsJson csvForm [⟨"f", "r1", none, none, none, [], none⟩]
        ⟨"json", none, none, some true⟩ "NOW" ∧
    exportAsCsv csvForm [⟨"f", "r1", none, none, none, [("q1", fileOnlyAnswer)], none⟩]
        ⟨"json", none, none, some true⟩
      = exportAsCsv csvForm [⟨"f", "r1", none, none, none, [], none⟩]
        ⟨"json", none, none, some true⟩ := by
  have h := export_textless_answer_like_missing csvForm ⟨"json", none, none, some true⟩
    "NOW" [] [] "f" "r1" none none none none [] [] "q1" fileOnlyAnswer rfl
    (by intro p hp; simp at hp)
  exact ⟨h.1 rfl, h.2⟩

end GForms
